import Mathlib

/-!
Verification development for the "Amigo Perto" proximity-alert firmware
(`src/etapa3/amigo_perto_v2`).  The C modules under `src/hal` and `src/gatt`
are shallowly embedded: pure helpers become Lean functions on `Nat`/`Int`
(C integer division is `Int.tdiv`, truncation toward zero), module-level
mutable state becomes explicit state records, and hardware outcomes
(ADC reads, radio results) become explicit parameters.
-/

set_option maxRecDepth 1000000

/-! ## Battery gauge: `src/hal/battery.c` -/

/-- Battery state enum `hal_battery_state_t` from `include/hal/battery.h`. -/
inductive HalBatteryState where
  | critical
  | low
  | medium
  | good
  | unknown
deriving DecidableEq, Repr

/-- `linear_interpolate` from `src/hal/battery.c` (lines 198-205); `int32_t`
arithmetic, C division truncates toward zero (`Int.tdiv`). -/
def linear_interpolate (x x0 y0 x1 y1 : Int) : Int :=
  if x ≤ x0 then y0
  else if x ≥ x1 then y1
  else y0 + ((x - x0) * (y1 - y0)).tdiv (x1 - x0)

/-- Body of `hal_battery_voltage_to_percentage` before the final clamp
(`src/hal/battery.c` lines 282-323).  The `uint16_t` argument is a `Nat`;
the comparisons against the breakpoint constants are on nonnegative values,
so Nat comparison is faithful to the C `int` promotion. -/
def battery_percentage_raw (voltage_mv : Nat) : Int :=
  if voltage_mv ≥ 3000 then 100
  else if voltage_mv ≥ 2800 then linear_interpolate voltage_mv 2800 70 3000 100
  else if voltage_mv ≥ 2500 then linear_interpolate voltage_mv 2500 30 2800 70
  else if voltage_mv ≥ 2200 then linear_interpolate voltage_mv 2200 10 2500 30
  else if voltage_mv ≥ 2000 then linear_interpolate voltage_mv 2000 0 2200 10
  else 0

/-- `hal_battery_voltage_to_percentage` (`src/hal/battery.c` lines 278-330):
segment interpolation followed by the two sequential clamps
`if (percentage > 100) percentage = 100; if (percentage < 0) percentage = 0;`
and the final cast to `uint8_t` (in range after the clamps). -/
def hal_battery_voltage_to_percentage (voltage_mv : Nat) : Nat :=
  let percentage := battery_percentage_raw voltage_mv
  let clampedHigh := if percentage > 100 then (100 : Int) else percentage
  let clampedLow := if clampedHigh < 0 then (0 : Int) else clampedHigh
  clampedLow.toNat

/-- `hal_battery_percentage_to_state` (`src/hal/battery.c` lines 332-353). -/
def hal_battery_percentage_to_state (percentage : Nat) : HalBatteryState :=
  if percentage > 70 then .good
  else if percentage > 30 then .medium
  else if percentage > 10 then .low
  else .critical

/-- Modelled from the spec (section 4.2 percentage mapping): breakpoints
(2000,0) (2200,10) (2500,30) (2800,70) (3000,100), below 2000 gives 0,
at or above 3000 gives 100, between breakpoints the linear interpolation
`y = y0 + (x - x0)(y1 - y0)/(x1 - x0)` with integer truncation.  Used as
the spec-side definition of the refinement claim C1. -/
def spec_percentage_segment (voltage_mv : Nat) : Int :=
  if voltage_mv < 2000 then 0
  else if voltage_mv < 2200 then
    0 + (((voltage_mv : Int) - 2000) * (10 - 0)).tdiv (2200 - 2000)
  else if voltage_mv < 2500 then
    10 + (((voltage_mv : Int) - 2200) * (30 - 10)).tdiv (2500 - 2200)
  else if voltage_mv < 2800 then
    30 + (((voltage_mv : Int) - 2500) * (70 - 30)).tdiv (2800 - 2500)
  else if voltage_mv < 3000 then
    70 + (((voltage_mv : Int) - 2800) * (100 - 70)).tdiv (3000 - 2800)
  else 100

/-- Modelled from the spec: the segment value clamped to [0,100]. -/
def spec_percentage (voltage_mv : Nat) : Nat :=
  (min 100 (max 0 (spec_percentage_segment voltage_mv))).toNat

lemma ball_of_range_all {p : Nat → Bool} {n : Nat}
    (h : ((List.range n).all p) = true) : ∀ v, v < n → p v = true := by
  intro v hv
  exact List.all_eq_true.mp h v (List.mem_range.mpr hv)

lemma battery_percentage_raw_ge_3000 (v : Nat) (h : 3000 ≤ v) :
    battery_percentage_raw v = 100 := by
  unfold battery_percentage_raw
  rw [if_pos h]

lemma voltage_to_percentage_ge_3000 (v : Nat) (h : 3000 ≤ v) :
    hal_battery_voltage_to_percentage v = 100 := by
  unfold hal_battery_voltage_to_percentage
  rw [battery_percentage_raw_ge_3000 v h]
  rfl

lemma spec_percentage_ge_3000 (v : Nat) (h : 3000 ≤ v) :
    spec_percentage v = 100 := by
  unfold spec_percentage spec_percentage_segment
  rw [if_neg (by omega), if_neg (by omega), if_neg (by omega),
      if_neg (by omega), if_neg (by omega)]
  rfl

lemma percentage_agrees_spec_below_3000 :
    ((List.range 3000).all fun v =>
      decide (hal_battery_voltage_to_percentage v = spec_percentage v)) = true := by
  decide

/-- Claim C1: for every voltage input, `hal_battery_voltage_to_percentage`
computes the percentage by piecewise linear interpolation with integer
truncation over the breakpoints (2000,0) (2200,10) (2500,30) (2800,70)
(3000,100), returning 0 below 2000 mV and 100 at or above 3000 mV; and it
maps 1999→0, 2000→0, 2100→5, 2200→10, 2350→20, 2500→30, 2650→50, 2800→70,
2900→85, 3000→100, 3100→100. -/
theorem voltage_to_percentage_matches_interpolation_spec :
    (∀ v : Nat, hal_battery_voltage_to_percentage v = spec_percentage v) ∧
    hal_battery_voltage_to_percentage 1999 = 0 ∧
    hal_battery_voltage_to_percentage 2000 = 0 ∧
    hal_battery_voltage_to_percentage 2100 = 5 ∧
    hal_battery_voltage_to_percentage 2200 = 10 ∧
    hal_battery_voltage_to_percentage 2350 = 20 ∧
    hal_battery_voltage_to_percentage 2500 = 30 ∧
    hal_battery_voltage_to_percentage 2650 = 50 ∧
    hal_battery_voltage_to_percentage 2800 = 70 ∧
    hal_battery_voltage_to_percentage 2900 = 85 ∧
    hal_battery_voltage_to_percentage 3000 = 100 ∧
    hal_battery_voltage_to_percentage 3100 = 100 := by
  refine ⟨?_, by decide, by decide, by decide, by decide, by decide, by decide,
    by decide, by decide, by decide, by decide, by decide⟩
  intro v
  by_cases hv : v < 3000
  · exact of_decide_eq_true (ball_of_range_all percentage_agrees_spec_below_3000 v hv)
  · rw [voltage_to_percentage_ge_3000 v (by omega), spec_percentage_ge_3000 v (by omega)]

/-- Claim C9: `hal_battery_percentage_to_state` returns Good iff
percentage > 70, Medium iff 30 < percentage ≤ 70, Low iff
10 < percentage ≤ 30, Critical otherwise; boundaries 70/30/10 fall to the
lower tier (70→Medium, 71→Good). -/
theorem percentage_to_state_thresholds :
    (∀ p : Nat, p ≤ 255 →
      (hal_battery_percentage_to_state p = .good ↔ 70 < p) ∧
      (hal_battery_percentage_to_state p = .medium ↔ 30 < p ∧ p ≤ 70) ∧
      (hal_battery_percentage_to_state p = .low ↔ 10 < p ∧ p ≤ 30) ∧
      (hal_battery_percentage_to_state p = .critical ↔ p ≤ 10)) ∧
    hal_battery_percentage_to_state 70 = .medium ∧
    hal_battery_percentage_to_state 71 = .good := by
  refine ⟨?_, by decide, by decide⟩
  decide

/-- Witness for C9 at the concrete percentage 100. -/
theorem percentage_to_state_thresholds_witness :
    hal_battery_percentage_to_state 100 = .good ↔ 70 < 100 :=
  (percentage_to_state_thresholds.1 100 (by decide)).1

lemma voltage_to_percentage_le_100 (v : Nat) :
    hal_battery_voltage_to_percentage v ≤ 100 := by
  simp only [hal_battery_voltage_to_percentage]
  split_ifs <;> omega

lemma voltage_to_percentage_step_mono :
    ((List.range 3000).all fun v =>
      decide (hal_battery_voltage_to_percentage v ≤
              hal_battery_voltage_to_percentage (v + 1))) = true := by
  decide

lemma voltage_to_percentage_le_succ (v : Nat) :
    hal_battery_voltage_to_percentage v ≤ hal_battery_voltage_to_percentage (v + 1) := by
  by_cases hv : v < 3000
  · exact of_decide_eq_true (ball_of_range_all voltage_to_percentage_step_mono v hv)
  · rw [voltage_to_percentage_ge_3000 v (by omega),
        voltage_to_percentage_ge_3000 (v + 1) (by omega)]

/-- Claim C10: `hal_battery_voltage_to_percentage` always lies in [0,100],
is monotonically non-decreasing in the voltage, and
`hal_battery_percentage_to_state` applied to its result is never Unknown. -/
theorem voltage_to_percentage_bounded_monotone_known :
    (∀ v : Nat, hal_battery_voltage_to_percentage v ≤ 100) ∧
    (∀ v1 v2 : Nat, v1 ≤ v2 →
      hal_battery_voltage_to_percentage v1 ≤ hal_battery_voltage_to_percentage v2) ∧
    (∀ v : Nat,
      hal_battery_percentage_to_state (hal_battery_voltage_to_percentage v) ≠ .unknown) := by
  refine ⟨voltage_to_percentage_le_100, ?_, ?_⟩
  · intro v1 v2 h
    exact monotone_nat_of_le_succ voltage_to_percentage_le_succ h
  · intro v
    unfold hal_battery_percentage_to_state
    split_ifs <;> simp

/-- Witness for C10 at the concrete voltages 2100 ≤ 2500. -/
theorem voltage_to_percentage_bounded_monotone_known_witness :
    hal_battery_voltage_to_percentage 2100 ≤ hal_battery_voltage_to_percentage 2500 :=
  voltage_to_percentage_bounded_monotone_known.2.1 2100 2500 (by decide)

/-! ## Buzzer pattern engine: `src/hal/buzzer.c`

Module state (`initialized`, `current_intensity`, `pattern_intermittent_active`,
the handler's `static bool state`, the delayable work item) becomes an explicit
record; the PWM output is modelled as the pulse width last written by
`pwm_set_dt`. -/

def HAL_BUZZER_SUCCESS : Int := 0
def HAL_BUZZER_ERROR_INIT : Int := -1
def HAL_BUZZER_ERROR_INVALID : Int := -2
def HAL_BUZZER_ERROR_STATE : Int := -3

/-- `HAL_BUZZER_INTENSITY_MEDIUM` from `include/hal/buzzer.h`. -/
def HAL_BUZZER_INTENSITY_MEDIUM : Nat := 50

/-- `PWM_PERIOD_NS` from `src/hal/buzzer.c`. -/
def PWM_PERIOD_NS : Nat := 20000000

/-- State of the buzzer module (`src/hal/buzzer.c` module variables plus the
handler's `static bool state` and the pending/not-pending status of the
delayable work item); `output_pulse_ns` is the pulse width currently driven
on the PWM channel. -/
structure BuzzerState where
  initialized : Bool
  current_intensity : Nat
  pattern_active : Bool
  toggle_state : Bool
  work_scheduled : Bool
  output_pulse_ns : Nat
deriving DecidableEq, Repr

/-- `intensity_to_pulse_ns` (`src/hal/buzzer.c` lines 82-90). -/
def intensity_to_pulse_ns (intensity : Nat) : Nat :=
  let i := if intensity > 100 then 100 else intensity
  (PWM_PERIOD_NS * i) / 100

/-- `pwm_set_intensity` (`src/hal/buzzer.c` lines 98-110); the hardware call
is modelled as always succeeding. -/
def pwm_set_intensity (intensity : Nat) (s : BuzzerState) : BuzzerState :=
  { s with output_pulse_ns := intensity_to_pulse_ns intensity }

/-- `stop_intermittent` (`src/hal/buzzer.c` lines 159-164): clear the active
flag, cancel the delayable work, drive the output to 0. -/
def stop_intermittent (s : BuzzerState) : BuzzerState :=
  pwm_set_intensity 0 { s with pattern_active := false, work_scheduled := false }

/-- `hal_buzzer_set_intermittent` (`src/hal/buzzer.c` lines 172-200). -/
def hal_buzzer_set_intermittent (active : Bool) (intensity : Nat) (s : BuzzerState) :
    Int × BuzzerState :=
  if s.initialized = false then (HAL_BUZZER_ERROR_STATE, s)
  else if intensity > 100 then (HAL_BUZZER_ERROR_INVALID, s)
  else if active then
    (HAL_BUZZER_SUCCESS,
      { s with current_intensity := intensity, pattern_active := true,
               work_scheduled := true })
  else (HAL_BUZZER_SUCCESS, stop_intermittent s)

/-- `pattern_intermittent_handler` (`src/hal/buzzer.c` lines 123-148), run when
the scheduled work fires (the firing consumes the pending schedule): if the
pattern is inactive it drives the output to 0 and does not reschedule;
otherwise it flips the toggle, drives intensity or 0, and reschedules. -/
def pattern_intermittent_handler (s : BuzzerState) : BuzzerState :=
  let s0 := { s with work_scheduled := false }
  if s0.pattern_active = false then pwm_set_intensity 0 s0
  else
    let s1 := { s0 with toggle_state := !s0.toggle_state }
    let s2 := if s1.toggle_state then pwm_set_intensity s1.current_intensity s1
              else pwm_set_intensity 0 s1
    { s2 with work_scheduled := true }

/-- State after `hal_buzzer_init` (`src/hal/buzzer.c` lines 210-239):
PWM driven to 0, medium intensity, pattern inactive, handler toggle at its
static initial value `false`, no work pending. -/
def buzzer_post_init_state : BuzzerState :=
  { initialized := true, current_intensity := HAL_BUZZER_INTENSITY_MEDIUM,
    pattern_active := false, toggle_state := false, work_scheduled := false,
    output_pulse_ns := 0 }

/-- Events driving the buzzer engine: an API call to
`hal_buzzer_set_intermittent`, or the firing of the scheduled work item. -/
inductive BuzzerEvent where
  | set (active : Bool) (intensity : Nat)
  | fire
deriving DecidableEq, Repr

/-- One step of the buzzer engine; a `fire` with no pending work is a no-op. -/
def buzzer_step (s : BuzzerState) (e : BuzzerEvent) : BuzzerState :=
  match e with
  | .set a i => (hal_buzzer_set_intermittent a i s).2
  | .fire => if s.work_scheduled then pattern_intermittent_handler s else s

/-- The state reached from the post-init state by a sequence of events:
exactly the reachable states of the buzzer engine. -/
def buzzer_run (events : List BuzzerEvent) : BuzzerState :=
  events.foldl buzzer_step buzzer_post_init_state

/-- Inductive invariant of the buzzer engine: the module stays initialized and
the PWM output is 0 whenever the pattern is inactive. -/
def buzzer_inv (s : BuzzerState) : Prop :=
  s.initialized = true ∧ (s.pattern_active = false → s.output_pulse_ns = 0)

lemma intensity_to_pulse_ns_zero : intensity_to_pulse_ns 0 = 0 := by decide

lemma buzzer_step_preserves_inv (s : BuzzerState) (e : BuzzerEvent)
    (h : buzzer_inv s) : buzzer_inv (buzzer_step s e) := by
  obtain ⟨hinit, hout⟩ := h
  cases e with
  | set a i =>
    simp only [buzzer_step, hal_buzzer_set_intermittent, stop_intermittent,
      pwm_set_intensity]
    split_ifs <;> exact ⟨hinit, by simp_all [intensity_to_pulse_ns_zero]⟩
  | fire =>
    simp only [buzzer_step, pattern_intermittent_handler, pwm_set_intensity]
    split_ifs <;> exact ⟨hinit, by simp_all [intensity_to_pulse_ns_zero]⟩

lemma buzzer_foldl_preserves_inv (events : List BuzzerEvent) :
    ∀ s : BuzzerState, buzzer_inv s → buzzer_inv (events.foldl buzzer_step s) := by
  induction events with
  | nil => intro s h; exact h
  | cons e rest ih =>
    intro s h
    exact ih (buzzer_step s e) (buzzer_step_preserves_inv s e h)

lemma buzzer_run_inv (events : List BuzzerEvent) : buzzer_inv (buzzer_run events) := by
  exact buzzer_foldl_preserves_inv events buzzer_post_init_state
    ⟨rfl, fun _ => rfl⟩

/-- Claim C5: in every reachable state of the buzzer engine the PWM output is
exactly 0 whenever the intermittent pattern is inactive; and after
`setIntermittent(true,50)` followed by `setIntermittent(false,0)` (from any
reachable state) the periodic work is cancelled, the output is 0, and no
further toggles occur (a `fire` with no scheduled work changes nothing). -/
theorem buzzer_output_zero_when_inactive :
    (∀ events : List BuzzerEvent,
      (buzzer_run events).pattern_active = false →
      (buzzer_run events).output_pulse_ns = 0) ∧
    (∀ events : List BuzzerEvent,
      (buzzer_run (events ++ [.set true 50, .set false 0])).output_pulse_ns = 0 ∧
      (buzzer_run (events ++ [.set true 50, .set false 0])).pattern_active = false ∧
      (buzzer_run (events ++ [.set true 50, .set false 0])).work_scheduled = false) ∧
    (∀ s : BuzzerState, s.work_scheduled = false → buzzer_step s .fire = s) := by
  refine ⟨fun events => (buzzer_run_inv events).2, ?_, ?_⟩
  · intro events
    have hinit : (buzzer_run events).initialized = true := (buzzer_run_inv events).1
    have hrw : buzzer_run (events ++ [.set true 50, .set false 0]) =
        buzzer_step (buzzer_step (buzzer_run events) (.set true 50)) (.set false 0) := by
      simp [buzzer_run, List.foldl_append]
    rw [hrw]
    simp [buzzer_step, hal_buzzer_set_intermittent, hinit, stop_intermittent,
      pwm_set_intensity, intensity_to_pulse_ns_zero]
  · intro s h
    simp [buzzer_step, h]

/-- Witness for C5 at the empty event sequence and a concrete idle state. -/
theorem buzzer_output_zero_when_inactive_witness :
    (buzzer_run []).output_pulse_ns = 0 ∧
    (buzzer_run ([] ++ [.set true 50, .set false 0])).output_pulse_ns = 0 ∧
    buzzer_step buzzer_post_init_state .fire = buzzer_post_init_state :=
  ⟨buzzer_output_zero_when_inactive.1 [] (by decide),
   (buzzer_output_zero_when_inactive.2.1 []).1,
   buzzer_output_zero_when_inactive.2.2 buzzer_post_init_state (by decide)⟩

/-! ## GATT buzzer service: `src/gatt/buzzer_service.c` and `src/main.c` -/

/-- ATT error codes returned by `write_buzzer_intermittent` through
`BT_GATT_ERR`. -/
inductive AttError where
  | invalidAttributeLen
  | invalidOffset
  | valueNotAllowed
deriving DecidableEq, Repr

/-- `write_buzzer_intermittent` (`src/gatt/buzzer_service.c` lines 73-105).
The write buffer is a list of bytes; `cb_registered` models whether
`buzzer_cb.buzzer_intermittent_cb` is non-NULL (main.c registers it).
The result is the returned length together with the Bool the callback was
invoked with (`none` when it was not invoked). -/
def write_buzzer_intermittent (cb_registered : Bool) (buf : List Nat) (offset : Nat) :
    Except AttError (Nat × Option Bool) :=
  if buf.length ≠ 1 then .error .invalidAttributeLen
  else if offset ≠ 0 then .error .invalidOffset
  else if cb_registered then
    let val := buf.headI
    if val = 0 ∨ val = 1 then .ok (buf.length, some (val != 0))
    else .error .valueNotAllowed
  else .ok (buf.length, none)

/-- `on_buzzer_intermittent_write` (`src/main.c` lines 132-141): the callback
main.c registers forwards the boolean to `hal_buzzer_set_intermittent` with the
fixed `HAL_BUZZER_INTENSITY_MEDIUM` intensity. -/
def on_buzzer_intermittent_write (buzzer_state : Bool) (s : BuzzerState) :
    Int × BuzzerState :=
  hal_buzzer_set_intermittent buzzer_state HAL_BUZZER_INTENSITY_MEDIUM s

/-- Claim C2: a buzzer-characteristic write of length ≠ 1 fails with
InvalidAttributeLength; otherwise a nonzero offset fails with InvalidOffset;
otherwise a byte outside {0x00, 0x01} fails with ValueNotAllowed; otherwise it
succeeds returning the length and invokes the registered callback with true
exactly when the byte is 0x01, and that callback forwards to
`setIntermittent` with the fixed medium (50) intensity. -/
theorem buzzer_write_validation :
    ∀ (buf : List Nat) (offset : Nat),
      (buf.length ≠ 1 →
        write_buzzer_intermittent true buf offset = .error .invalidAttributeLen) ∧
      (buf.length = 1 → offset ≠ 0 →
        write_buzzer_intermittent true buf offset = .error .invalidOffset) ∧
      (∀ b : Nat, buf = [b] → offset = 0 → b ≠ 0 → b ≠ 1 →
        write_buzzer_intermittent true buf offset = .error .valueNotAllowed) ∧
      (∀ b : Nat, buf = [b] → offset = 0 → (b = 0 ∨ b = 1) →
        write_buzzer_intermittent true buf offset = .ok (1, some (b == 1))) ∧
      (∀ (b : Bool) (s : BuzzerState),
        on_buzzer_intermittent_write b s = hal_buzzer_set_intermittent b 50 s) := by
  intro buf offset
  refine ⟨?_, ?_, ?_, ?_, fun b s => rfl⟩
  · intro hlen
    simp [write_buzzer_intermittent, hlen]
  · intro hlen hoff
    simp [write_buzzer_intermittent, hlen, hoff]
  · intro b hbuf hoff hb0 hb1
    subst hbuf hoff
    simp [write_buzzer_intermittent, hb0, hb1]
  · intro b hbuf hoff hval
    subst hbuf hoff
    rcases hval with h | h <;> subst h <;> rfl

/-- Witness for C2 at concrete writes: wrong length, wrong offset, value 0x02,
and the two accepted values. -/
theorem buzzer_write_validation_witness :
    write_buzzer_intermittent true [0, 0] 0 = .error .invalidAttributeLen ∧
    write_buzzer_intermittent true [1] 1 = .error .invalidOffset ∧
    write_buzzer_intermittent true [2] 0 = .error .valueNotAllowed ∧
    write_buzzer_intermittent true [1] 0 = .ok (1, some true) ∧
    write_buzzer_intermittent true [0] 0 = .ok (1, some false) :=
  ⟨(buzzer_write_validation [0, 0] 0).1 (by decide),
   (buzzer_write_validation [1] 1).2.1 (by decide) (by decide),
   (buzzer_write_validation [2] 0).2.2.1 2 rfl rfl (by decide) (by decide),
   (buzzer_write_validation [1] 0).2.2.2.1 1 rfl rfl (Or.inr rfl),
   (buzzer_write_validation [0] 0).2.2.2.1 0 rfl rfl (Or.inl rfl)⟩

/-! ## ADC oversampling: `src/hal/battery.c` lines 117-182

Each of the `ADC_SAMPLES = 4` loop iterations either fails (`adc_read < 0`,
modelled as `none`) or yields a raw `int16_t` sample (`some raw`). -/

/-- `ADC_VREF_MV` from `src/hal/battery.c`. -/
def ADC_VREF_MV : Nat := 3600

/-- `ADC_RESOLUTION` from `src/hal/battery.c`. -/
def ADC_RESOLUTION : Nat := 12

/-- `(1 << ADC_RESOLUTION) - 1`, the maximum raw ADC count. -/
def adc_max_count : Nat := 2 ^ ADC_RESOLUTION - 1

/-- `adc_raw_to_mv` (`src/hal/battery.c` lines 117-127) on the nonnegative
average: `(adc_value * ADC_VREF_MV) / adc_max` in `uint32_t` arithmetic
(no overflow for averages up to 4095), then the multiplication by the float
`BATTERY_DIVIDER_RATIO = 1.0f`, which is the identity on this range. -/
def adc_raw_to_mv (adc_value : Nat) : Nat :=
  (adc_value * ADC_VREF_MV) / adc_max_count

/-- The sample-validity test of the oversampling loop
(`raw_value >= 0 && raw_value < (1 << ADC_RESOLUTION)`). -/
def sample_valid (raw : Int) : Bool :=
  decide (0 ≤ raw) && decide (raw < (2 : Int) ^ ADC_RESOLUTION)

/-- The accumulation loop of `adc_read_with_oversampling`
(`src/hal/battery.c` lines 146-166): failed reads are skipped, valid raw
values are summed and counted. -/
def adc_loop : List (Option Int) → Int → Nat → Int × Nat
  | [], sum, valid => (sum, valid)
  | none :: rest, sum, valid => adc_loop rest sum valid
  | some raw :: rest, sum, valid =>
    if sample_valid raw then adc_loop rest (sum + raw) (valid + 1)
    else adc_loop rest sum valid

/-- `adc_read_with_oversampling` (`src/hal/battery.c` lines 135-182): `none`
models the `-EIO` failure that `hal_battery_read_voltage` maps to
`HAL_BATTERY_ERROR_READ`; otherwise the voltage computed from the truncated
integer average `sum / valid_samples`. -/
def adc_read_with_oversampling (samples : List (Option Int)) : Option Nat :=
  let sv := adc_loop samples 0 0
  if sv.2 = 0 then none
  else some (adc_raw_to_mv ((sv.1.tdiv (sv.2 : Int)).toNat))

/-- The valid samples of a sequence of read outcomes: failures discarded, then
out-of-range raw values discarded. -/
def valid_samples (samples : List (Option Int)) : List Int :=
  (samples.filterMap id).filter sample_valid

/-- Modelled from the spec (section 4.2 `getReading()`): round-to-nearest
division, used by the spec's conversion formula
`round(avg_raw * V_ref / (2^resolution - 1))`. -/
def round_nearest (a b : Nat) : Nat := (2 * a + b) / (2 * b)

/-- Conversion of the valid samples as claim C6 must be amended: the integer
average (truncated) converted with truncating division,
`(avg * V_ref) / (2^resolution - 1)`, times the divider ratio 1. -/
def spec_voltage_mv (valid : List Int) : Nat :=
  ((valid.sum.tdiv (valid.length : Int)).toNat * ADC_VREF_MV) / adc_max_count

lemma valid_samples_cons_none (rest : List (Option Int)) :
    valid_samples (none :: rest) = valid_samples rest := by
  simp [valid_samples, List.filterMap_cons]

lemma valid_samples_cons_some (raw : Int) (rest : List (Option Int)) :
    valid_samples (some raw :: rest) =
      if sample_valid raw then raw :: valid_samples rest else valid_samples rest := by
  simp [valid_samples, List.filterMap_cons, List.filter_cons]

lemma adc_loop_eq_valid_samples (samples : List (Option Int)) :
    ∀ (sum : Int) (valid : Nat),
      adc_loop samples sum valid =
        (sum + (valid_samples samples).sum, valid + (valid_samples samples).length) := by
  induction samples with
  | nil => intro sum valid; simp [adc_loop, valid_samples]
  | cons hd rest ih =>
    intro sum valid
    cases hd with
    | none =>
      rw [valid_samples_cons_none]
      simp only [adc_loop]
      exact ih sum valid
    | some raw =>
      rw [valid_samples_cons_some]
      by_cases hv : sample_valid raw
      · rw [show adc_loop (some raw :: rest) sum valid =
              adc_loop rest (sum + raw) (valid + 1) from by simp [adc_loop, hv]]
        rw [ih (sum + raw) (valid + 1)]
        simp only [hv, if_true, List.sum_cons, List.length_cons, Prod.mk.injEq]
        constructor
        · ring
        · omega
      · rw [show adc_loop (some raw :: rest) sum valid =
              adc_loop rest sum valid from by simp [adc_loop, hv]]
        rw [ih sum valid]
        simp [hv]

/-- Counterexample to claim C6 as stated: with the single valid raw sample 1
(the other three reads failing) the code returns 0 mV by truncation, while the
spec formula `round(avg_raw * V_ref / (2^resolution - 1))` gives 1 mV. -/
theorem adc_conversion_truncates_not_rounds :
    adc_read_with_oversampling [some 1, none, none, none] = some 0 ∧
    round_nearest (1 * ADC_VREF_MV) adc_max_count = 1 ∧ (0 : Nat) ≠ 1 := by
  decide

/-- Claim C6 as amended: over every sequence of 4 sample outcomes the reading
discards failed and out-of-range samples, fails (ReadError) iff no valid
sample remains, and otherwise returns
`(avg_raw * V_ref) / (2^resolution - 1) * 1` where `avg_raw` is the truncated
integer average of the valid samples (truncating division, not rounding). -/
theorem adc_oversampling_average_conversion :
    ∀ samples : List (Option Int), samples.length = 4 →
      (adc_read_with_oversampling samples = none ↔ valid_samples samples = []) ∧
      (valid_samples samples ≠ [] →
        adc_read_with_oversampling samples =
          some (spec_voltage_mv (valid_samples samples))) := by
  intro samples _
  unfold adc_read_with_oversampling
  rw [adc_loop_eq_valid_samples samples 0 0]
  simp only [Int.zero_add, Nat.zero_add]
  constructor
  · constructor
    · intro h
      by_contra hne
      have : (valid_samples samples).length ≠ 0 := by
        simpa [List.length_eq_zero] using hne
      simp [this] at h
    · intro h
      simp [h]
  · intro hne
    have hlen : (valid_samples samples).length ≠ 0 := by
      simpa [List.length_eq_zero] using hne
    simp only [hlen, if_neg]
    rfl

/-- Witness for C6 (amended) at a concrete 4-sample sequence with one failed
read, one saturated sample and two valid samples 1000 and 1001
(average 1000, voltage 879 mV). -/
theorem adc_oversampling_average_conversion_witness :
    adc_read_with_oversampling [some 1000, none, some 4096, some 1001] =
      some (spec_voltage_mv (valid_samples [some 1000, none, some 4096, some 1001])) :=
  (adc_oversampling_average_conversion [some 1000, none, some 4096, some 1001]
    (by decide)).2 (by decide)

/-! ## BLE connectivity manager: `src/hal/ble.c`

Module state becomes a record; the Zephyr work queue is modelled by the
pending/not-pending status of `adv_work`; radio results (`bt_enable`,
`bt_le_adv_start`) become explicit Bool parameters. -/

def HAL_BLE_SUCCESS : Int := 0
def HAL_BLE_ERROR_INIT : Int := -1
def HAL_BLE_ERROR_INVALID : Int := -2
def HAL_BLE_ERROR_STATE : Int := -3
def HAL_BLE_ERROR_NOT_CONNECTED : Int := -4
def HAL_BLE_ERROR_FAILED : Int := -5

/-- `hal_ble_state_t` from `include/hal/ble.h`. -/
inductive HalBleState where
  | idle
  | ready
  | advertising
  | connected
deriving DecidableEq, Repr

/-- `hal_ble_adv_params_t` from `include/hal/ble.h`. -/
structure HalBleAdvParams where
  interval_min_ms : Nat
  interval_max_ms : Nat
  connectable : Bool
  use_identity : Bool
deriving DecidableEq, Repr

/-- State of the BLE module (`src/hal/ble.c` module variables):
`conn` models `current_conn != NULL`, `adv_work_pending` the submitted
`adv_work` item, `adv_param` the configured advertising parameters
(`none` = defaults). -/
structure BleState where
  initialized : Bool
  current_state : HalBleState
  device_name : List Char
  conn : Bool
  adv_work_pending : Bool
  adv_param : Option HalBleAdvParams
deriving DecidableEq, Repr

/-- The module state before `hal_ble_init` (static initializers of
`src/hal/ble.c`). -/
def ble_pre_init_state : BleState :=
  { initialized := false, current_state := .idle, device_name := [],
    conn := false, adv_work_pending := false, adv_param := none }

/-- `hal_ble_init` (`src/hal/ble.c` lines 266-326).  The device name is
`none` for a NULL pointer; `bt_enable_ok` models the result of
`bt_enable(NULL)`.  Names of at most `MAX_DEVICE_NAME_LEN = 29` bytes are
stored whole (the `strncpy` cannot truncate them). -/
def hal_ble_init (device_name_param : Option (List Char)) (bt_enable_ok : Bool)
    (s : BleState) : Int × BleState :=
  if s.initialized then (HAL_BLE_SUCCESS, s)
  else
    match device_name_param with
    | none => (HAL_BLE_ERROR_INVALID, s)
    | some name =>
      if name.length > 29 then (HAL_BLE_ERROR_INVALID, s)
      else if bt_enable_ok = false then (HAL_BLE_ERROR_INIT, s)
      else (HAL_BLE_SUCCESS,
        { s with initialized := true, current_state := .ready,
                 device_name := name })

/-- Validity-check condition of `hal_ble_start_advertising`
(`src/hal/ble.c` lines 352-356): `ADV_INTERVAL_MIN_MS = 20`,
`ADV_INTERVAL_MAX_MS = 10240`. -/
def adv_params_out_of_range (p : HalBleAdvParams) : Bool :=
  decide (p.interval_min_ms < 20) || decide (p.interval_min_ms > 10240) ||
  decide (p.interval_max_ms < 20) || decide (p.interval_max_ms > 10240) ||
  decide (p.interval_min_ms > p.interval_max_ms)

/-- `hal_ble_start_advertising` (`src/hal/ble.c` lines 328-395): the actual
radio start happens later in the work handler; a successful call only
configures the parameters and submits the work item. -/
def hal_ble_start_advertising (adv_params : Option HalBleAdvParams) (s : BleState) :
    Int × BleState :=
  if s.initialized = false then (HAL_BLE_ERROR_STATE, s)
  else if s.current_state = .connected then (HAL_BLE_ERROR_STATE, s)
  else if s.current_state = .advertising then (HAL_BLE_SUCCESS, s)
  else
    match adv_params with
    | some p =>
      if adv_params_out_of_range p then (HAL_BLE_ERROR_INVALID, s)
      else (HAL_BLE_SUCCESS,
        { s with adv_param := some p, adv_work_pending := true })
    | none => (HAL_BLE_SUCCESS, { s with adv_param := none, adv_work_pending := true })

/-- `adv_work_handler` (`src/hal/ble.c` lines 186-222), run when the queued
work executes (consuming the pending item): a no-op if already connected;
on `bt_le_adv_start` failure (`adv_start_ok = false`) the state is left
unchanged; on success the state becomes Advertising. -/
def adv_work_handler (adv_start_ok : Bool) (s : BleState) : BleState :=
  let s0 := { s with adv_work_pending := false }
  if s0.current_state = .connected then s0
  else if adv_start_ok = false then s0
  else { s0 with current_state := .advertising }

/-- `on_connected` (`src/hal/ble.c` lines 96-136): on a failed connection
(`err ≠ 0`) it only re-submits the advertising work; on success it stores the
connection reference (releasing any stale one first) and moves to Connected. -/
def on_connected (err : Nat) (s : BleState) : BleState :=
  if err ≠ 0 then { s with adv_work_pending := true }
  else { s with conn := true, current_state := .connected }

/-- Claim C3 counterexample state: the module advertising, as left by a run of
the advertising work handler. -/
def ble_advertising_state : BleState :=
  { initialized := true, current_state := .advertising, device_name := [],
    conn := false, adv_work_pending := false, adv_param := none }

/-- Counterexample to claim C3 as stated: a connect event with error 1
delivered while the module records Advertising leaves the state Advertising,
not Ready. -/
theorem failed_connect_leaves_advertising :
    (on_connected 1 ble_advertising_state).current_state = HalBleState.advertising ∧
    HalBleState.advertising ≠ HalBleState.ready := by
  decide

/-- Claim C3 as amended: a connect event with nonzero error unconditionally
re-queues the advertising work (no backoff, no retry limit — the behaviour
depends only on `err ≠ 0`), does not acquire a connection reference, and
leaves the recorded Connectivity Manager state unchanged (in particular a
Ready state remains Ready). -/
theorem failed_connect_requeues_advertising :
    ∀ (err : Nat) (s : BleState), err ≠ 0 →
      (on_connected err s).adv_work_pending = true ∧
      (on_connected err s).conn = s.conn ∧
      (on_connected err s).current_state = s.current_state ∧
      (on_connected err s).initialized = s.initialized ∧
      (on_connected err s).adv_param = s.adv_param := by
  intro err s herr
  simp [on_connected, herr]

/-- Witness for C3 (amended) at error 1 and the concrete advertising state. -/
theorem failed_connect_requeues_advertising_witness :
    (on_connected 1 ble_advertising_state).adv_work_pending = true ∧
    (on_connected 1 ble_advertising_state).conn = ble_advertising_state.conn ∧
    (on_connected 1 ble_advertising_state).current_state =
      ble_advertising_state.current_state ∧
    (on_connected 1 ble_advertising_state).initialized =
      ble_advertising_state.initialized ∧
    (on_connected 1 ble_advertising_state).adv_param =
      ble_advertising_state.adv_param :=
  failed_connect_requeues_advertising 1 ble_advertising_state (by decide)

/-- Claim C7: from Ready with a valid config (20 ≤ min ≤ max ≤ 10240),
`startAdvertising` succeeds synchronously, only enqueues the work and stays
Ready, and the queued handler then enters Advertising; from Connected it fails
InvalidState without enqueuing; from Ready an out-of-range config fails
InvalidArgument; from Advertising it is a no-op success. -/
theorem start_advertising_per_state :
    ∀ (s : BleState) (p : HalBleAdvParams),
      (s.initialized = true → s.current_state = .ready →
        20 ≤ p.interval_min_ms → p.interval_min_ms ≤ p.interval_max_ms →
        p.interval_max_ms ≤ 10240 →
        hal_ble_start_advertising (some p) s =
          (HAL_BLE_SUCCESS, { s with adv_param := some p, adv_work_pending := true })) ∧
      (s.current_state = .ready → (adv_work_handler true s).current_state = .advertising) ∧
      (∀ q : Option HalBleAdvParams, s.initialized = true →
        s.current_state = .connected →
        hal_ble_start_advertising q s = (HAL_BLE_ERROR_STATE, s)) ∧
      (s.initialized = true → s.current_state = .ready →
        ¬(20 ≤ p.interval_min_ms ∧ p.interval_min_ms ≤ p.interval_max_ms ∧
          p.interval_max_ms ≤ 10240) →
        hal_ble_start_advertising (some p) s = (HAL_BLE_ERROR_INVALID, s)) ∧
      (∀ q : Option HalBleAdvParams, s.initialized = true →
        s.current_state = .advertising →
        hal_ble_start_advertising q s = (HAL_BLE_SUCCESS, s)) := by
  intro s p
  refine ⟨?_, ?_, ?_, ?_, ?_⟩
  · intro hinit hready hmin hminmax hmax
    have hrange : adv_params_out_of_range p = false := by
      simp only [adv_params_out_of_range]
      simp only [Bool.or_eq_false_iff, decide_eq_false_iff_not]
      omega
    simp [hal_ble_start_advertising, hinit, hready, hrange]
  · intro hready
    simp [adv_work_handler, hready]
  · intro q hinit hconn
    simp [hal_ble_start_advertising, hinit, hconn]
  · intro hinit hready hbad
    have hrange : adv_params_out_of_range p = true := by
      simp only [adv_params_out_of_range]
      simp only [Bool.or_eq_true, decide_eq_true_eq]
      omega
    simp [hal_ble_start_advertising, hinit, hready, hrange]
  · intro q hinit hadv
    simp [hal_ble_start_advertising, hinit, hadv]

/-- A concrete Ready module state used by the C7 and C8 witnesses. -/
def ble_ready_state : BleState :=
  { initialized := true, current_state := .ready, device_name := [],
    conn := false, adv_work_pending := false, adv_param := none }

/-- The advertising parameters main.c uses (500 ms / 500 ms). -/
def main_adv_params : HalBleAdvParams :=
  { interval_min_ms := 500, interval_max_ms := 500,
    connectable := true, use_identity := true }

/-- Witness for C7 at the concrete Ready state with the 500/500 ms config,
plus the Connected and Advertising cases at the matching concrete states. -/
theorem start_advertising_per_state_witness :
    hal_ble_start_advertising (some main_adv_params) ble_ready_state =
      (HAL_BLE_SUCCESS,
        { ble_ready_state with
            adv_param := some main_adv_params, adv_work_pending := true }) ∧
    (adv_work_handler true ble_ready_state).current_state = .advertising ∧
    hal_ble_start_advertising none { ble_ready_state with current_state := .connected } =
      (HAL_BLE_ERROR_STATE, { ble_ready_state with current_state := .connected }) ∧
    hal_ble_start_advertising
        (some { main_adv_params with interval_min_ms := 19 }) ble_ready_state =
      (HAL_BLE_ERROR_INVALID, ble_ready_state) ∧
    hal_ble_start_advertising none ble_advertising_state =
      (HAL_BLE_SUCCESS, ble_advertising_state) :=
  ⟨(start_advertising_per_state ble_ready_state main_adv_params).1 rfl rfl
      (by decide) (by decide) (by decide),
   (start_advertising_per_state ble_ready_state main_adv_params).2.1 rfl,
   (start_advertising_per_state { ble_ready_state with current_state := .connected }
      main_adv_params).2.2.1 none rfl rfl,
   (start_advertising_per_state ble_ready_state
      { main_adv_params with interval_min_ms := 19 }).2.2.2.1 rfl rfl (by decide),
   (start_advertising_per_state ble_advertising_state main_adv_params).2.2.2.2
      none rfl rfl⟩

/-- Counterexample to claim C8 as stated: an empty (non-NULL) device name is
accepted by `hal_ble_init` — the call succeeds and initializes the module
instead of failing with InvalidArgument. -/
theorem init_accepts_empty_name :
    (hal_ble_init (some []) true ble_pre_init_state).1 = HAL_BLE_SUCCESS ∧
    (hal_ble_init (some []) true ble_pre_init_state).2.initialized = true ∧
    HAL_BLE_SUCCESS ≠ HAL_BLE_ERROR_INVALID := by
  decide

/-- Claim C8 as amended: `init` fails with InvalidArgument when the name is
NULL or longer than 29 bytes (an empty name is accepted), leaving the module
uninitialized; fails with InitError if the link layer cannot be enabled; on
success transitions Idle→Ready; re-init while initialized is a no-op
success. -/
theorem init_validation_and_transition :
    ∀ (name : Option (List Char)) (bt_enable_ok : Bool) (s : BleState),
      (s.initialized = false →
        (name = none → hal_ble_init name bt_enable_ok s = (HAL_BLE_ERROR_INVALID, s)) ∧
        (∀ n : List Char, name = some n → 29 < n.length →
          hal_ble_init name bt_enable_ok s = (HAL_BLE_ERROR_INVALID, s)) ∧
        (∀ n : List Char, name = some n → n.length ≤ 29 → bt_enable_ok = false →
          hal_ble_init name bt_enable_ok s = (HAL_BLE_ERROR_INIT, s)) ∧
        (∀ n : List Char, name = some n → n.length ≤ 29 → bt_enable_ok = true →
          hal_ble_init name bt_enable_ok s =
            (HAL_BLE_SUCCESS,
              { s with
                  initialized := true, current_state := .ready,
                  device_name := n }))) ∧
      (s.initialized = true → hal_ble_init name bt_enable_ok s = (HAL_BLE_SUCCESS, s)) := by
  intro name bt_enable_ok s
  constructor
  · intro huninit
    refine ⟨?_, ?_, ?_, ?_⟩
    · intro hnone
      subst hnone
      simp [hal_ble_init, huninit]
    · intro n hsome hlong
      subst hsome
      simp only [hal_ble_init, huninit, Bool.false_eq_true, if_false]
      rw [if_pos (by omega)]
    · intro n hsome hshort hbt
      subst hsome hbt
      simp only [hal_ble_init, huninit, Bool.false_eq_true, if_false]
      rw [if_neg (by omega)]
      rfl
    · intro n hsome hshort hbt
      subst hsome hbt
      simp only [hal_ble_init, huninit, Bool.false_eq_true, if_false]
      rw [if_neg (by omega)]
      rfl
  · intro hinit
    simp [hal_ble_init, hinit]

/-- Witness for C8 (amended) at concrete inputs: NULL name, a 30-byte name,
a link-layer failure, a successful init from the pre-init state, and a
re-init of an initialized module. -/
theorem init_validation_and_transition_witness :
    hal_ble_init none true ble_pre_init_state =
      (HAL_BLE_ERROR_INVALID, ble_pre_init_state) ∧
    hal_ble_init (some (List.replicate 30 'x')) true ble_pre_init_state =
      (HAL_BLE_ERROR_INVALID, ble_pre_init_state) ∧
    hal_ble_init (some ['A']) false ble_pre_init_state =
      (HAL_BLE_ERROR_INIT, ble_pre_init_state) ∧
    hal_ble_init (some ['A']) true ble_pre_init_state =
      (HAL_BLE_SUCCESS,
        { ble_pre_init_state with
            initialized := true, current_state := .ready,
            device_name := ['A'] }) ∧
    hal_ble_init (some ['A']) true ble_ready_state = (HAL_BLE_SUCCESS, ble_ready_state) :=
  ⟨((init_validation_and_transition none true ble_pre_init_state).1 rfl).1 rfl,
   ((init_validation_and_transition (some (List.replicate 30 'x')) true
      ble_pre_init_state).1 rfl).2.1 (List.replicate 30 'x') rfl (by decide),
   ((init_validation_and_transition (some ['A']) false ble_pre_init_state).1 rfl).2.2.1
      ['A'] rfl (by decide) rfl,
   ((init_validation_and_transition (some ['A']) true ble_pre_init_state).1 rfl).2.2.2
      ['A'] rfl (by decide) rfl,
   (init_validation_and_transition (some ['A']) true ble_ready_state).2 rfl⟩

/-! ## Disconnect event across modules: `src/hal/ble.c` `on_disconnected`,
`src/gatt/battery_service.c` `disconnected_cb`, `src/main.c`
`on_ble_disconnected` -/

/-- Combined state of the modules a disconnect event touches: the BLE module,
the battery service's connection reference and notification flag
(`current_conn` / `notify_enabled` in `src/gatt/battery_service.c`), and the
buzzer engine. -/
structure SystemState where
  ble : BleState
  bas_conn : Bool
  bas_notify_enabled : Bool
  buzzer : BuzzerState
deriving DecidableEq, Repr

/-- `on_ble_disconnected` (`src/main.c` lines 88-95), the `disconnected`
callback main.c registers with the HAL: it forces the buzzer pattern off via
`hal_buzzer_set_intermittent(false, 0)`. -/
def on_ble_disconnected (buzzer : BuzzerState) : BuzzerState :=
  (hal_buzzer_set_intermittent false 0 buzzer).2

/-- `on_disconnected` (`src/hal/ble.c` lines 141-159) with the main.c callback
wiring: release the connection reference if held (the returned `Nat` counts
the `bt_conn_unref` calls), clear it, move to Ready, then invoke the
registered user callback. -/
def ble_on_disconnected (s : BleState) (buzzer : BuzzerState) :
    (BleState × BuzzerState) × Nat :=
  let unrefs := if s.conn then 1 else 0
  let s1 := { s with conn := false, current_state := .ready }
  ((s1, on_ble_disconnected buzzer), unrefs)

/-- `disconnected_cb` (`src/gatt/battery_service.c` lines 224-234): release
the service's own connection reference and clear `notify_enabled`. -/
def bas_disconnected_cb (bas_conn : Bool) (bas_notify_enabled : Bool) : Bool × Bool :=
  (false, false)

/-- A disconnect event as delivered to the registered `bt_conn_cb` structures:
the BLE HAL handler (which calls main.c's callback) and the battery service
handler both run.  Returns the new system state and the number of
`bt_conn_unref` calls made by the BLE HAL on its reference. -/
def system_disconnect_event (sys : SystemState) : SystemState × Nat :=
  let hal := ble_on_disconnected sys.ble sys.buzzer
  let bas := bas_disconnected_cb sys.bas_conn sys.bas_notify_enabled
  ({ ble := hal.1.1, bas_conn := bas.1, bas_notify_enabled := bas.2,
     buzzer := hal.1.2 }, hal.2)

/-- Claim C4: every disconnect event, from any prior state (with the buzzer
module initialized, as main.c guarantees), moves the Connectivity Manager to
Ready, releases the held connection reference exactly once and clears it,
clears the battery-notification subscription flag, and forces the buzzer
pattern inactive with output 0 and its periodic work cancelled. -/
theorem disconnect_resets_connection_scoped_state :
    ∀ sys : SystemState, sys.buzzer.initialized = true →
      ((system_disconnect_event sys).1.ble.current_state = .ready) ∧
      ((system_disconnect_event sys).1.ble.conn = false) ∧
      (sys.ble.conn = true → (system_disconnect_event sys).2 = 1) ∧
      (sys.ble.conn = false → (system_disconnect_event sys).2 = 0) ∧
      ((system_disconnect_event sys).1.bas_notify_enabled = false) ∧
      ((system_disconnect_event sys).1.buzzer.pattern_active = false) ∧
      ((system_disconnect_event sys).1.buzzer.output_pulse_ns = 0) ∧
      ((system_disconnect_event sys).1.buzzer.work_scheduled = false) := by
  intro sys hbuz
  refine ⟨rfl, rfl, ?_, ?_, rfl, ?_, ?_, ?_⟩ <;>
    simp [system_disconnect_event, ble_on_disconnected, bas_disconnected_cb,
      on_ble_disconnected, hal_buzzer_set_intermittent, hbuz, stop_intermittent,
      pwm_set_intensity, intensity_to_pulse_ns_zero]

/-- A concrete connected system state for the C4 witness. -/
def sys_connected_state : SystemState :=
  { ble := { initialized := true, current_state := .connected, device_name := [],
             conn := true, adv_work_pending := false, adv_param := none },
    bas_conn := true, bas_notify_enabled := true,
    buzzer := { initialized := true, current_intensity := 50, pattern_active := true,
                toggle_state := true, work_scheduled := true,
                output_pulse_ns := 10000000 } }

/-- Witness for C4 at the concrete connected system state. -/
theorem disconnect_resets_connection_scoped_state_witness :
    (system_disconnect_event sys_connected_state).1.ble.current_state = .ready ∧
    (system_disconnect_event sys_connected_state).2 = 1 ∧
    (system_disconnect_event sys_connected_state).1.bas_notify_enabled = false ∧
    (system_disconnect_event sys_connected_state).1.buzzer.output_pulse_ns = 0 :=
  have h := disconnect_resets_connection_scoped_state sys_connected_state (by decide)
  ⟨h.1, h.2.2.1 (by decide), h.2.2.2.2.1, h.2.2.2.2.2.2.1⟩
